import Mathlib

/-!
Verification of the Session REST controller in
src/server/api/session/session.controller.js.

The controller is embedded shallowly: request/response bodies are JSON-like
values, the Express response object is a log of the (status, body) pairs the
handler writes (Express delivers the first; later writes are ineffective at
the HTTP level), promise chains become explicit sequencing over
World x Except, and the external collaborators (the Sequelize datastore
behind Sessions and the fast-json-patch library), which are not part of this
repository's sources, are modelled from the specification.
-/

set_option autoImplicit false
set_option maxRecDepth 4000

namespace Session

/-- JSON-like values: the controller treats bodies and records as opaque
JSON data (null, booleans, numbers, strings, objects, arrays). Numbers are
modelled as integers; nothing in the controller does numeric arithmetic. -/
inductive Value where
  | vNull : Value
  | vBool : Bool → Value
  | vNum : Int → Value
  | vStr : String → Value
  | vObj : List (String × Value) → Value
  | vArr : List Value → Value

/-- JavaScript truthiness of a possibly-missing value, as used by the
controller's if-guards: undefined/null, false, 0 and the empty string are
falsy; objects and arrays (even empty) are truthy. -/
def truthy : Option Value → Bool
  | none => false
  | some Value.vNull => false
  | some (Value.vBool b) => b
  | some (Value.vNum n) => n != 0
  | some (Value.vStr s) => s != ""
  | some (Value.vObj _) => true
  | some (Value.vArr _) => true

/-- Property access v[k]: defined for objects, undefined otherwise
(arrays parsed from JSON carry no named properties). -/
def getProp (v : Value) (k : String) : Option Value :=
  match v with
  | Value.vObj fs => List.lookup k fs
  | _ => none

/-- The JavaScript statement delete v[k] on an object; a no-op on
non-objects. -/
def deleteProp (v : Value) (k : String) : Value :=
  match v with
  | Value.vObj fs => Value.vObj (fs.filter (fun p => p.1 != k))
  | _ => v

/-- The id-stripping prologue shared by upsert and patch:
if(req.body.id) \x7b delete req.body.id; \x7d — the delete runs only when
body.id is truthy. -/
def stripId (body : Value) : Value :=
  if truthy (getProp body "id") then deleteProp body "id" else body

/-- Whether a stored record matches the id filter of
Sessions.find(\x7bwhere: \x7bid\x7d\x7d). -/
def hasId (s : Value) (id : Int) : Bool :=
  match getProp s "id" with
  | some (Value.vNum n) => n == id
  | _ => false

/-- One response the handler writes through the Express res object: a status
code and an optional JSON body (none models res.end() with empty body). -/
structure Response where
  status : Nat
  body : Option Value

/-- A datastore primitive invoked by the controller, with its payload. -/
inductive DbEvent where
  | createE : Value → DbEvent
  | upsertE : Value → Int → DbEvent
  | saveE : Value → DbEvent
  | destroyE : Value → DbEvent

/-- Observable effects of one request: the responses written (in order) and
the datastore mutations invoked (in order). -/
structure World where
  writes : List Response
  events : List DbEvent

/-- Promise .then: run the continuation on a fulfilled value, propagate a
rejection unchanged. -/
def pthen {α β : Type} (p : World × Except Value α)
    (f : α → World → World × Except Value β) : World × Except Value β :=
  match p with
  | (w, Except.error e) => (w, Except.error e)
  | (w, Except.ok a) => f a w

/-- Promise .catch: run the handler on a rejection, pass a fulfilled value
through unchanged. -/
def pcatch {α : Type} (p : World × Except Value α)
    (h : Value → World → World × Except Value α) : World × Except Value α :=
  match p with
  | (w, Except.error e) => h e w
  | (w, Except.ok a) => (w, Except.ok a)

/-- respondWithResult(res, statusCode): when the incoming entity is truthy,
write it as JSON with the status (default 200); otherwise do nothing. The
JS function returns the res object on the write path, but every chain ends
with this combinator, so the resolved value is unobservable; we resolve
with the entity. -/
def respondWithResult (statusCode : Option Nat) (entity : Option Value)
    (w : World) : World × Except Value (Option Value) :=
  let sc := statusCode.getD 200
  if truthy entity then
    (⟨w.writes ++ [⟨sc, entity⟩], w.events⟩, Except.ok entity)
  else
    (w, Except.ok none)

/-- handleEntityNotFound(res): on a falsy entity write 404 with empty body
and resolve with null; otherwise pass the entity through. -/
def handleEntityNotFound (entity : Option Value) (w : World) :
    World × Except Value (Option Value) :=
  if truthy entity then (w, Except.ok entity)
  else (⟨w.writes ++ [⟨404, none⟩], w.events⟩, Except.ok none)

/-- handleError(res, statusCode): write the raw error with the status
(default 500); resolves with undefined. -/
def handleError (statusCode : Option Nat) (err : Value) (w : World) :
    World × Except Value (Option Value) :=
  let sc := statusCode.getD 500
  (⟨w.writes ++ [⟨sc, some err⟩], w.events⟩, Except.ok none)

/-- Equality of JSON values, needed only by the test operation of the patch
engine. -/
def beqValue : Value → Value → Bool
  | Value.vNull, Value.vNull => true
  | Value.vBool a, Value.vBool b => a == b
  | Value.vNum a, Value.vNum b => a == b
  | Value.vStr a, Value.vStr b => a == b
  | Value.vObj fs, Value.vObj gs => beqFields fs gs
  | Value.vArr xs, Value.vArr ys => beqElems xs ys
  | _, _ => false
where
  beqFields : List (String × Value) → List (String × Value) → Bool
    | [], [] => true
    | (k, v) :: fs, (k2, v2) :: gs => k == k2 && beqValue v v2 && beqFields fs gs
    | _, _ => false
  beqElems : List Value → List Value → Bool
    | [], [] => true
    | v :: xs, v2 :: ys => beqValue v v2 && beqElems xs ys
    | _, _ => false

/-- Splits the character list of a JSON pointer (after the leading slash)
at every slash. -/
def splitOnSlash : List Char → List (List Char)
  | [] => [[]]
  | c :: rest =>
    match splitOnSlash rest, decide (c = '/') with
    | r, true => [] :: r
    | [], false => [[c]]
    | s :: ss, false => (c :: s) :: ss

/-- Parses a JSON pointer string: the empty pointer addresses the whole
document, otherwise the pointer must start with a slash and its segments
name object fields. (Escape sequences and array indices are outside the
record model of this controller, whose entities are flat field maps.) -/
def parsePointer (s : String) : Option (List String) :=
  match s.data with
  | [] => some []
  | '/' :: rest => some ((splitOnSlash rest).map (fun cs => String.mk cs))
  | _ => none

/-- Whether an object has a field named k. -/
def hasField (fs : List (String × Value)) (k : String) : Bool :=
  fs.any (fun p => p.1 == k)

/-- Overwrites the value of every field named k. -/
def setField (fs : List (String × Value)) (k : String) (v : Value) :
    List (String × Value) :=
  fs.map (fun p => if p.1 = k then (p.1, v) else p)

/-- Reads the value a pointer addresses inside a document. -/
def getPath : List String → Value → Option Value
  | [], v => some v
  | k :: ks, Value.vObj fs =>
    match List.lookup k fs with
    | some child => getPath ks child
    | none => none
  | _ :: _, _ => none

/-- Writes a value at a pointer: with mustExist (the replace operation) the
addressed location must already exist; without it (the add operation) a
missing final field is created. -/
def setPath (mustExist : Bool) : List String → Value → Value → Option Value
  | [], _, v => some v
  | [k], Value.vObj fs, v =>
    if hasField fs k then some (Value.vObj (setField fs k v))
    else if mustExist then none
    else some (Value.vObj (fs ++ [(k, v)]))
  | k :: ks, Value.vObj fs, v =>
    match List.lookup k fs with
    | some child =>
      match setPath mustExist ks child v with
      | some c => some (Value.vObj (setField fs k c))
      | none => none
    | none => none
  | _ :: _, _, _ => none

/-- Removes the field a pointer addresses; fails when it is absent. -/
def removePath : List String → Value → Option Value
  | [], _ => none
  | [k], Value.vObj fs =>
    if hasField fs k then some (Value.vObj (fs.filter (fun p => p.1 != k)))
    else none
  | k :: ks, Value.vObj fs =>
    match List.lookup k fs with
    | some child =>
      match removePath ks child with
      | some c => some (Value.vObj (setField fs k c))
      | none => none
    | none => none
  | _ :: _, _ => none

/-- Modelled from the spec: one operation of the external fast-json-patch
library (not part of this repository), applied with validation, following
section 9 of the spec: a structural mutation operation is validated against
the document's current shape and the whole batch is rejected on the first
invalid one. An operation must be an object carrying a valid op name and a
pointer path; add, remove, replace, test, move and copy are supported;
malformed or inapplicable operations yield an error value. -/
def applyOp (doc : Value) (op : Value) : Except Value Value :=
  match getProp op "op", getProp op "path" with
  | some (Value.vStr o), some (Value.vStr p) =>
    match parsePointer p with
    | none => Except.error (Value.vStr "OPERATION_PATH_INVALID")
    | some segs =>
      if o = "replace" then
        match getProp op "value" with
        | some v =>
          match setPath true segs doc v with
          | some d => Except.ok d
          | none => Except.error (Value.vStr "OPERATION_PATH_UNRESOLVABLE")
        | none => Except.error (Value.vStr "OPERATION_VALUE_REQUIRED")
      else if o = "add" then
        match getProp op "value" with
        | some v =>
          match setPath false segs doc v with
          | some d => Except.ok d
          | none => Except.error (Value.vStr "OPERATION_PATH_UNRESOLVABLE")
        | none => Except.error (Value.vStr "OPERATION_VALUE_REQUIRED")
      else if o = "remove" then
        match removePath segs doc with
        | some d => Except.ok d
        | none => Except.error (Value.vStr "OPERATION_PATH_UNRESOLVABLE")
      else if o = "test" then
        match getProp op "value" with
        | some v =>
          match getPath segs doc with
          | some cur =>
            if beqValue cur v then Except.ok doc
            else Except.error (Value.vStr "TEST_OPERATION_FAILED")
          | none => Except.error (Value.vStr "OPERATION_PATH_UNRESOLVABLE")
        | none => Except.error (Value.vStr "OPERATION_VALUE_REQUIRED")
      else if o = "move" then
        match getProp op "from" with
        | some (Value.vStr fp) =>
          match parsePointer fp with
          | none => Except.error (Value.vStr "OPERATION_FROM_INVALID")
          | some fsegs =>
            match getPath fsegs doc with
            | some v =>
              match removePath fsegs doc with
              | some d1 =>
                match setPath false segs d1 v with
                | some d2 => Except.ok d2
                | none => Except.error (Value.vStr "OPERATION_PATH_UNRESOLVABLE")
              | none => Except.error (Value.vStr "OPERATION_FROM_UNRESOLVABLE")
            | none => Except.error (Value.vStr "OPERATION_FROM_UNRESOLVABLE")
        | _ => Except.error (Value.vStr "OPERATION_FROM_REQUIRED")
      else if o = "copy" then
        match getProp op "from" with
        | some (Value.vStr fp) =>
          match parsePointer fp with
          | none => Except.error (Value.vStr "OPERATION_FROM_INVALID")
          | some fsegs =>
            match getPath fsegs doc with
            | some v =>
              match setPath false segs doc v with
              | some d2 => Except.ok d2
              | none => Except.error (Value.vStr "OPERATION_PATH_UNRESOLVABLE")
            | none => Except.error (Value.vStr "OPERATION_FROM_UNRESOLVABLE")
        | _ => Except.error (Value.vStr "OPERATION_FROM_REQUIRED")
      else Except.error (Value.vStr "OPERATION_OP_INVALID")
  | _, _ => Except.error (Value.vStr "OPERATION_OP_INVALID")

/-- Modelled from the spec: jsonpatch.apply(document, patches, true) of the
external fast-json-patch library. The patch sequence must be an array; the
operations are validated and applied left to right, all-or-nothing. When the
document is null (the entity slot after a 404 short-circuit) any attempt to
apply an operation throws the usual JavaScript null-dereference TypeError;
an empty sequence applies vacuously. -/
def jsonpatchApply (document : Option Value) (patches : Value) :
    Except Value (Option Value) :=
  match patches with
  | Value.vArr ops =>
    match document with
    | none =>
      if ops.isEmpty then Except.ok none
      else Except.error (Value.vStr "TypeError: cannot apply operation to null")
    | some doc =>
      match ops.foldlM applyOp doc with
      | Except.ok d => Except.ok (some d)
      | Except.error e => Except.error e
  | _ => Except.error (Value.vStr "SEQUENCE_NOT_AN_ARRAY")

/-- The TypeError raised by entity.save() when the entity slot holds null
(patchUpdates runs even after handleEntityNotFound resolved with null). -/
def nullSaveErr : Value :=
  Value.vStr "TypeError: cannot read property save of null"

/-- patchUpdates(patches): apply the patch document to the entity with
validation; a patch failure becomes Promise.reject(err); on success return
entity.save(), which records the save invocation and resolves with the
saved entity (or rejects with the datastore's error). When the entity is
null, applying a non-empty document or calling save on it throws. -/
def patchUpdates (saveFault : Option Value) (patches : Value)
    (entity : Option Value) (w : World) : World × Except Value (Option Value) :=
  match jsonpatchApply entity patches with
  | Except.error err => (w, Except.error err)
  | Except.ok none => (w, Except.error nullSaveErr)
  | Except.ok (some e2) =>
    match saveFault with
    | some err => (⟨w.writes, w.events ++ [DbEvent.saveE e2]⟩, Except.error err)
    | none =>
      (⟨w.writes, w.events ++ [DbEvent.saveE e2]⟩, Except.ok (some e2))

/-- removeEntity(res): on a truthy entity call entity.destroy() and, when it
resolves, write 204 with empty body; on a falsy entity resolve with
undefined. A rejection of destroy propagates. -/
def removeEntity (destroyFault : Option Value) (entity : Option Value)
    (w : World) : World × Except Value (Option Value) :=
  if truthy entity then
    match entity with
    | some e =>
      pthen
        ((match destroyFault with
          | some err =>
            (⟨w.writes, w.events ++ [DbEvent.destroyE e]⟩, Except.error err)
          | none =>
            (⟨w.writes, w.events ++ [DbEvent.destroyE e]⟩, Except.ok none)) :
          World × Except Value (Option Value))
        (fun _ w2 => (⟨w2.writes ++ [⟨204, none⟩], w2.events⟩, Except.ok none))
    | none => (w, Except.ok none)
  else (w, Except.ok none)

/-- Modelled from the spec: Sessions.find(\x7bwhere: \x7bid\x7d\x7d) of the
external datastore resolves with the first stored record whose id matches,
or with null; a datastore failure is injected through findFault. -/
def dbFind (store : List Value) (findFault : Option Value) (id : Int)
    (w : World) : World × Except Value (Option Value) :=
  match findFault with
  | some e => (w, Except.error e)
  | none => (w, Except.ok (store.find? (fun s => hasId s id)))

/-- Modelled from the spec: Sessions.findAll() resolves with the list of all
stored records (possibly empty); a failure is injected through the fault. -/
def dbFindAll (store : List Value) (findAllFault : Option Value)
    (w : World) : World × Except Value (Option Value) :=
  match findAllFault with
  | some e => (w, Except.error e)
  | none => (w, Except.ok (some (Value.vArr store)))

/-- Modelled from the spec: Sessions.create(data) records the invocation
with its exact payload and resolves with the created record (chosen by the
datastore), or rejects. -/
def dbCreate (createFault : Option Value) (created : Value) (data : Value)
    (w : World) : World × Except Value (Option Value) :=
  let w1 : World := ⟨w.writes, w.events ++ [DbEvent.createE data]⟩
  match createFault with
  | some e => (w1, Except.error e)
  | none => (w1, Except.ok (some created))

/-- Modelled from the spec: Sessions.upsert(data, \x7bwhere: \x7bid\x7d\x7d)
records the invocation with its exact payload and resolves with a
datastore-specific result (a record or an affected-rows indicator), or
rejects. -/
def dbUpsert (upsertFault : Option Value) (result : Value) (data : Value)
    (id : Int) (w : World) : World × Except Value (Option Value) :=
  let w1 : World := ⟨w.writes, w.events ++ [DbEvent.upsertE data id]⟩
  match upsertFault with
  | some e => (w1, Except.error e)
  | none => (w1, Except.ok (some result))

/-- index(req, res): Sessions.findAll()
.then(respondWithResult(res)).catch(handleError(res)). -/
def index (store : List Value) (findAllFault : Option Value) : World :=
  (pcatch
    (pthen (dbFindAll store findAllFault ⟨[], []⟩) (respondWithResult none))
    (handleError none)).1

/-- show(req, res): Sessions.find(\x7bwhere: \x7bid\x7d\x7d)
.then(handleEntityNotFound(res)).then(respondWithResult(res))
.catch(handleError(res)). -/
def show' (store : List Value) (findFault : Option Value) (id : Int) : World :=
  (pcatch
    (pthen
      (pthen (dbFind store findFault id ⟨[], []⟩) handleEntityNotFound)
      (respondWithResult none))
    (handleError none)).1

/-- create(req, res): Sessions.create(req.body)
.then(respondWithResult(res, 201)).catch(handleError(res)) — the body is
forwarded verbatim, with no id stripping. -/
def create (createFault : Option Value) (created : Value) (body : Value) :
    World :=
  (pcatch
    (pthen (dbCreate createFault created body ⟨[], []⟩)
      (respondWithResult (some 201)))
    (handleError none)).1

/-- upsert(req, res): delete a truthy req.body.id, then
Sessions.upsert(req.body, \x7bwhere: \x7bid\x7d\x7d)
.then(respondWithResult(res)).catch(handleError(res)). -/
def upsert (upsertFault : Option Value) (result : Value) (id : Int)
    (body : Value) : World :=
  (pcatch
    (pthen (dbUpsert upsertFault result (stripId body) id ⟨[], []⟩)
      (respondWithResult none))
    (handleError none)).1

/-- patch(req, res): delete a truthy req.body.id, then
Sessions.find(\x7bwhere: \x7bid\x7d\x7d)
.then(handleEntityNotFound(res)).then(patchUpdates(req.body))
.then(respondWithResult(res)).catch(handleError(res)). -/
def patch (findFault saveFault : Option Value) (store : List Value)
    (id : Int) (body : Value) : World :=
  (pcatch
    (pthen
      (pthen
        (pthen (dbFind store findFault id ⟨[], []⟩) handleEntityNotFound)
        (patchUpdates saveFault (stripId body)))
      (respondWithResult none))
    (handleError none)).1

/-- destroy(req, res): Sessions.find(\x7bwhere: \x7bid\x7d\x7d)
.then(handleEntityNotFound(res)).then(removeEntity(res))
.catch(handleError(res)). -/
def destroy (findFault destroyFault : Option Value) (store : List Value)
    (id : Int) : World :=
  (pcatch
    (pthen
      (pthen (dbFind store findFault id ⟨[], []⟩) handleEntityNotFound)
      (removeEntity destroyFault))
    (handleError none)).1

/-- A sample stored session record. -/
def sess1 : Value := Value.vObj [("id", Value.vNum 1), ("name", Value.vStr "s1")]

/-- sess1 after a patch operation replaced its id with 2. -/
def sess2 : Value := Value.vObj [("id", Value.vNum 2), ("name", Value.vStr "s1")]

/-- A sample datastore error payload. -/
def errV : Value := Value.vStr "boom"

/-- A patch document whose single operation replaces the record's id. -/
def replaceIdDoc : Value :=
  Value.vArr [Value.vObj
    [("op", Value.vStr "replace"), ("path", Value.vStr "/id"),
     ("value", Value.vNum 2)]]

/-- A structurally invalid patch document: unknown operation name. -/
def badOpDoc : Value :=
  Value.vArr [Value.vObj
    [("op", Value.vStr "frobnicate"), ("path", Value.vStr "/x")]]

theorem pthen_ok {α β : Type} (w : World) (a : α)
    (f : α → World → World × Except Value β) :
    pthen (w, Except.ok a) f = f a w := rfl

theorem pthen_err {α β : Type} (w : World) (e : Value)
    (f : α → World → World × Except Value β) :
    pthen (w, Except.error e) f = (w, Except.error e) := rfl

theorem pcatch_ok {α : Type} (w : World) (a : α)
    (h : Value → World → World × Except Value α) :
    pcatch (w, Except.ok a) h = (w, Except.ok a) := rfl

theorem pcatch_err {α : Type} (w : World) (e : Value)
    (h : Value → World → World × Except Value α) :
    pcatch (w, Except.error e) h = h e w := rfl

/-- A record matching an id filter is an object, hence truthy. -/
theorem truthy_of_hasId (s : Value) (id : Int) (h : hasId s id = true) :
    truthy (some s) = true := by
  cases s <;> simp_all [hasId, getProp, truthy]

/-- Looking a key up after filtering it out always misses. -/
theorem lookup_filter_self (k : String) (fs : List (String × Value)) :
    List.lookup k (fs.filter (fun p => p.1 != k)) = none := by
  induction fs with
  | nil => rfl
  | cons p fs ih =>
    by_cases h : p.1 = k
    · have hb : (p.1 != k) = false := by simp [h]
      simpa [List.filter_cons, hb] using ih
    · have hb : (p.1 != k) = true := bne_iff_ne.mpr h
      have hk : (k == p.1) = false := beq_eq_false_iff_ne.mpr (fun hh => h hh.symm)
      simp [List.filter_cons, hb, List.lookup, hk, ih]

/-- After delete v.id, the id property of the body is gone (for any body
shape). -/
theorem getProp_deleteProp (body : Value) :
    getProp (deleteProp body "id") "id" = none := by
  cases body <;> simp [getProp, deleteProp, lookup_filter_self]

/-- patchUpdates on the null entity always rejects: either the patch
application throws on the null document or entity.save() dereferences
null. -/
theorem patchUpdates_null (sf : Option Value) (patches : Value) (w : World) :
    ∃ err, patchUpdates sf patches none w = (w, Except.error err) := by
  unfold patchUpdates jsonpatchApply
  cases patches with
  | vArr ops =>
    cases ops with
    | nil => exact ⟨nullSaveErr, rfl⟩
    | cons o os =>
      exact ⟨Value.vStr "TypeError: cannot apply operation to null", rfl⟩
  | vNull => exact ⟨Value.vStr "SEQUENCE_NOT_AN_ARRAY", rfl⟩
  | vBool b => exact ⟨Value.vStr "SEQUENCE_NOT_AN_ARRAY", rfl⟩
  | vNum n => exact ⟨Value.vStr "SEQUENCE_NOT_AN_ARRAY", rfl⟩
  | vStr s => exact ⟨Value.vStr "SEQUENCE_NOT_AN_ARRAY", rfl⟩
  | vObj fs => exact ⟨Value.vStr "SEQUENCE_NOT_AN_ARRAY", rfl⟩

/-- C6: for every id, show responds 200 with the matching record when a
record with that id exists in the store, and 404 with an empty body when no
record with that id exists. -/
theorem C6_show_contract (store : List Value) (id : Int) :
    (∀ ent, store.find? (fun s => hasId s id) = some ent →
      show' store none id = ⟨[⟨200, some ent⟩], []⟩) ∧
    (store.find? (fun s => hasId s id) = none →
      show' store none id = ⟨[⟨404, none⟩], []⟩) := by
  constructor
  · intro ent h
    have hp : hasId ent id = true := by simpa using List.find?_some h
    have ht : truthy (some ent) = true := truthy_of_hasId ent id hp
    simp [show', dbFind, pthen, pcatch, handleEntityNotFound,
      respondWithResult, h, ht]
  · intro h
    simp [show', dbFind, pthen, pcatch, handleEntityNotFound,
      respondWithResult, h, truthy]

/-- C6 witness: with the store holding the record of id 1, show 1 yields
200 with that record and show 2 yields 404 empty. -/
theorem C6_show_witness :
    show' [sess1] none 1 = ⟨[⟨200, some sess1⟩], []⟩ ∧
    show' [sess1] none 2 = ⟨[⟨404, none⟩], []⟩ :=
  ⟨(C6_show_contract [sess1] 1).1 sess1 (by rfl),
   (C6_show_contract [sess1] 2).2 (by rfl)⟩

/-- C8: index responds 200 with exactly the list findAll resolves with,
even when it is empty, and 500 with the error payload when findAll
rejects. -/
theorem C8_index_contract (store : List Value) (e : Value) :
    index store none = ⟨[⟨200, some (Value.vArr store)⟩], []⟩ ∧
    index store (some e) = ⟨[⟨500, some e⟩], []⟩ := by
  constructor
  · simp [index, dbFindAll, pthen, pcatch, respondWithResult, truthy]
  · simp [index, dbFindAll, pthen, pcatch, handleError]

/-- C10: create forwards the request body to the datastore's create
verbatim — no stripping — so a client-supplied id field reaches the
datastore as-is, whether or not create later fails. -/
theorem C10_create_forwards (body created : Value) (cf : Option Value) :
    (create cf created body).events = [DbEvent.createE body] := by
  cases cf with
  | none =>
    cases hc : truthy (some created) <;>
      simp [create, dbCreate, pthen, pcatch, respondWithResult, hc]
  | some e =>
    simp [create, dbCreate, pthen, pcatch, handleError]

/-- C5: destroy fetches the record by id; when it is absent it responds 404
with empty body and invokes no deletion; when present it deletes the record
and then responds 204 with empty body; a datastore failure at either step
(the find or the delete) yields a 500 with the error. -/
theorem C5_destroy_contract (store : List Value) (id : Int) (e : Value)
    (df : Option Value) :
    (store.find? (fun s => hasId s id) = none →
      destroy none df store id = ⟨[⟨404, none⟩], []⟩) ∧
    (∀ ent, store.find? (fun s => hasId s id) = some ent →
      destroy none none store id = ⟨[⟨204, none⟩], [DbEvent.destroyE ent]⟩) ∧
    destroy (some e) df store id = ⟨[⟨500, some e⟩], []⟩ ∧
    (∀ ent, store.find? (fun s => hasId s id) = some ent →
      destroy none (some e) store id =
        ⟨[⟨500, some e⟩], [DbEvent.destroyE ent]⟩) := by
  refine ⟨?_, ?_, ?_, ?_⟩
  · intro h
    simp [destroy, dbFind, pthen, pcatch, handleEntityNotFound, removeEntity,
      h, truthy]
  · intro ent h
    have ht : truthy (some ent) = true :=
      truthy_of_hasId ent id (by simpa using List.find?_some h)
    simp [destroy, dbFind, pthen, pcatch, handleEntityNotFound, removeEntity,
      h, ht]
  · simp [destroy, dbFind, pthen, pcatch, handleError]
  · intro ent h
    have ht : truthy (some ent) = true :=
      truthy_of_hasId ent id (by simpa using List.find?_some h)
    simp [destroy, dbFind, pthen, pcatch, handleEntityNotFound, removeEntity,
      handleError, h, ht]

/-- C5 witness: deleting the stored record of id 1 destroys it and answers
204; id 2 answers 404 with no deletion; injected failures answer 500. -/
theorem C5_destroy_witness :
    destroy none none [sess1] 1 = ⟨[⟨204, none⟩], [DbEvent.destroyE sess1]⟩ ∧
    destroy none none [sess1] 2 = ⟨[⟨404, none⟩], []⟩ ∧
    destroy (some errV) none [sess1] 1 = ⟨[⟨500, some errV⟩], []⟩ ∧
    destroy none (some errV) [sess1] 1 =
      ⟨[⟨500, some errV⟩], [DbEvent.destroyE sess1]⟩ :=
  ⟨(C5_destroy_contract [sess1] 1 errV none).2.1 sess1 (by rfl),
   (C5_destroy_contract [sess1] 2 errV none).1 (by rfl),
   (C5_destroy_contract [sess1] 1 errV none).2.2.1,
   (C5_destroy_contract [sess1] 1 errV none).2.2.2 sess1 (by rfl)⟩

/-- C3: when the record exists and the patch document is one the patch
library throws on, patch writes a single 500 response carrying the patch
error and invokes no datastore mutation — in particular no save, so the
stored record is unchanged. -/
theorem C3_patch_invalid_no_save (store : List Value) (id : Int)
    (ent doc err : Value) (sf : Option Value)
    (hf : store.find? (fun s => hasId s id) = some ent)
    (he : jsonpatchApply (some ent) (stripId doc) = Except.error err) :
    patch none sf store id doc = ⟨[⟨500, some err⟩], []⟩ := by
  have ht : truthy (some ent) = true :=
    truthy_of_hasId ent id (by simpa using List.find?_some hf)
  simp [patch, dbFind, pthen, pcatch, handleEntityNotFound, patchUpdates,
    respondWithResult, handleError, hf, ht, he]

/-- C3 witness: an unknown operation name on the existing record of id 1
yields exactly one 500 with the validation error and no events. -/
theorem C3_patch_invalid_witness :
    patch none none [sess1] 1 badOpDoc =
      ⟨[⟨500, some (Value.vStr "OPERATION_OP_INVALID")⟩], []⟩ :=
  C3_patch_invalid_no_save [sess1] 1 sess1 badOpDoc
    (Value.vStr "OPERATION_OP_INVALID") none (by rfl) (by rfl)

/-- C2 counterexample: with an empty store, patching id 1 with the empty
patch document writes the 404 and then a second, 500 response (the pipeline
keeps running on the null entity and entity.save() throws), so the claim
that no other response is issued fails; no save is ever invoked. -/
theorem C2_patch_notfound_counterexample :
    patch none none [] 1 (Value.vArr []) =
      ⟨[⟨404, none⟩, ⟨500, some nullSaveErr⟩], []⟩ := rfl

/-- C2 amended: patch on a non-existing id responds 404 with empty body
first and never invokes save, but it does not stop there: patchUpdates
still runs on the null entity, its failure rejects the chain, and
handleError attempts one additional 500 response (ineffective at the HTTP
level, the 404 having already been sent). -/
theorem C2_patch_notfound_amended (store : List Value) (id : Int)
    (body : Value) (sf : Option Value)
    (h : store.find? (fun s => hasId s id) = none) :
    ∃ err, patch none sf store id body =
      ⟨[⟨404, none⟩, ⟨500, some err⟩], []⟩ := by
  obtain ⟨err, hpu⟩ :=
    patchUpdates_null sf (stripId body) ⟨[⟨404, none⟩], []⟩
  refine ⟨err, ?_⟩
  simp [patch, dbFind, pthen, pcatch, handleEntityNotFound, truthy, h, hpu,
    handleError]

/-- C2 witness: a well-formed replace operation against a non-existing id
gives the 404 followed by the attempted 500, with no save invoked. -/
theorem C2_patch_notfound_witness :
    ∃ err, patch none none [] 1
      (Value.vArr [Value.vObj
        [("op", Value.vStr "replace"), ("path", Value.vStr "/name"),
         ("value", Value.vStr "z")]]) =
      ⟨[⟨404, none⟩, ⟨500, some err⟩], []⟩ :=
  C2_patch_notfound_amended [] 1
    (Value.vArr [Value.vObj
      [("op", Value.vStr "replace"), ("path", Value.vStr "/name"),
       ("value", Value.vStr "z")]]) none (by rfl)

/-- C1 counterexample: the record stored under id 1 has id 1, yet the patch
document replacing /id makes patch save an entity whose id is 2 and answer
200 with it — a patch document can change the stored record's id, because
the id stripping touches only the patch array itself. -/
theorem C1_id_write_counterexample :
    getProp sess1 "id" = some (Value.vNum 1) ∧
    patch none none [sess1] 1 replaceIdDoc =
      ⟨[⟨200, some sess2⟩], [DbEvent.saveE sess2]⟩ ∧
    getProp sess2 "id" = some (Value.vNum 2) :=
  ⟨rfl, rfl, rfl⟩

/-- C1 amended: the id stripping deletes only a truthy id property of the
request body: for upsert this removes the body's id field before the
datastore write, but for patch the body is the patch array (whose id
property is absent), and the entity saved is exactly the result of applying
the patch operations — so operations targeting /id can still change the
stored record's id. -/
theorem C1_id_write_amended (body doc : Value) (store : List Value)
    (id : Int) :
    (truthy (getProp body "id") = true →
      ∀ uf result, (upsert uf result id body).events =
        [DbEvent.upsertE (deleteProp body "id") id] ∧
      getProp (deleteProp body "id") "id" = none) ∧
    (∀ ent ent2, store.find? (fun s => hasId s id) = some ent →
      jsonpatchApply (some ent) (stripId doc) = Except.ok (some ent2) →
      (patch none none store id doc).events = [DbEvent.saveE ent2]) := by
  constructor
  · intro h uf result
    refine ⟨?_, getProp_deleteProp body⟩
    cases uf with
    | some e => simp [upsert, stripId, dbUpsert, pthen, pcatch, handleError, h]
    | none =>
      cases hc : truthy (some result) <;>
        simp [upsert, stripId, dbUpsert, pthen, pcatch, respondWithResult,
          h, hc]
  · intro ent ent2 hf ha
    have ht : truthy (some ent) = true :=
      truthy_of_hasId ent id (by simpa using List.find?_some hf)
    cases hc : truthy (some ent2) <;>
      simp [patch, dbFind, pthen, pcatch, handleEntityNotFound, patchUpdates,
        respondWithResult, hf, ht, ha, hc]

/-- C1 witness: a truthy body id (5) is stripped before the upsert write,
and the replace-id patch document makes patch save the record with id 2. -/
theorem C1_id_write_witness :
    (upsert none (Value.vBool true) 1
      (Value.vObj [("id", Value.vNum 5), ("name", Value.vStr "x")])).events =
      [DbEvent.upsertE (Value.vObj [("name", Value.vStr "x")]) 1] ∧
    (patch none none [sess1] 1 replaceIdDoc).events = [DbEvent.saveE sess2] := by
  have h := C1_id_write_amended
    (Value.vObj [("id", Value.vNum 5), ("name", Value.vStr "x")])
    replaceIdDoc [sess1] 1
  exact ⟨(h.1 (by rfl) none (Value.vBool true)).1,
    h.2 sess1 sess2 (by rfl) (by rfl)⟩

/-- C4 counterexample: a body whose id field holds the falsy value 0 is
passed to the datastore upsert with its id field intact — the strip is
guarded by JavaScript truthiness, so it does not run for every value. -/
theorem C4_upsert_strip_counterexample :
    (upsert none (Value.vBool true) 1
      (Value.vObj [("id", Value.vNum 0), ("name", Value.vStr "x")])).events =
      [DbEvent.upsertE
        (Value.vObj [("id", Value.vNum 0), ("name", Value.vStr "x")]) 1] ∧
    getProp (Value.vObj [("id", Value.vNum 0), ("name", Value.vStr "x")])
      "id" = some (Value.vNum 0) :=
  ⟨rfl, rfl⟩

/-- C4 amended: upsert removes a client-supplied id field from the body
before calling the datastore upsert whenever that id is truthy — regardless
of whether it equals the path id — while a falsy id value (0, empty string,
false, null) is left in the body. -/
theorem C4_upsert_strip_amended (body : Value) (id : Int) (uf : Option Value)
    (result : Value) :
    (truthy (getProp body "id") = true →
      (upsert uf result id body).events =
        [DbEvent.upsertE (deleteProp body "id") id] ∧
      getProp (deleteProp body "id") "id" = none) ∧
    (truthy (getProp body "id") = false →
      (upsert uf result id body).events = [DbEvent.upsertE body id]) := by
  constructor
  · intro h
    refine ⟨?_, getProp_deleteProp body⟩
    cases uf with
    | some e => simp [upsert, stripId, dbUpsert, pthen, pcatch, handleError, h]
    | none =>
      cases hc : truthy (some result) <;>
        simp [upsert, stripId, dbUpsert, pthen, pcatch, respondWithResult,
          h, hc]
  · intro h
    cases uf with
    | some e => simp [upsert, stripId, dbUpsert, pthen, pcatch, handleError, h]
    | none =>
      cases hc : truthy (some result) <;>
        simp [upsert, stripId, dbUpsert, pthen, pcatch, respondWithResult,
          h, hc]

/-- C4 witness: a truthy id 5 is stripped (and the stripped body has no id
field, whatever the path id); a body without id is forwarded unchanged. -/
theorem C4_upsert_strip_witness :
    (upsert none (Value.vBool true) 7
      (Value.vObj [("id", Value.vNum 5), ("name", Value.vStr "x")])).events =
      [DbEvent.upsertE (Value.vObj [("name", Value.vStr "x")]) 7] ∧
    (upsert none (Value.vBool true) 7
      (Value.vObj [("name", Value.vStr "x")])).events =
      [DbEvent.upsertE (Value.vObj [("name", Value.vStr "x")]) 7] :=
  ⟨((C4_upsert_strip_amended
      (Value.vObj [("id", Value.vNum 5), ("name", Value.vStr "x")]) 7 none
      (Value.vBool true)).1 (by rfl)).1,
   (C4_upsert_strip_amended (Value.vObj [("name", Value.vStr "x")]) 7 none
      (Value.vBool true)).2 (by rfl)⟩

/-- C7 counterexample: when the datastore's upsert resolves with the falsy
affected-rows indicator false, the handler writes no response at all —
respondWithResult skips falsy values — so it does not respond 200 with
every resolved value. -/
theorem C7_upsert_respond_counterexample :
    upsert none (Value.vBool false) 1 (Value.vObj [("name", Value.vStr "x")]) =
      ⟨[], [DbEvent.upsertE (Value.vObj [("name", Value.vStr "x")]) 1]⟩ := rfl

/-- C7 amended: for every truthy value the datastore's upsert primitive
resolves with (a record, or a truthy affected-rows indicator), upsert
responds 200 with that value as the body; a falsy resolved value produces
no response. -/
theorem C7_upsert_respond_amended (result body : Value) (id : Int)
    (h : truthy (some result) = true) :
    upsert none result id body =
      ⟨[⟨200, some result⟩], [DbEvent.upsertE (stripId body) id]⟩ := by
  simp [upsert, dbUpsert, pthen, pcatch, respondWithResult, h]

/-- C7 witness: an upsert resolving with true is answered 200 with true. -/
theorem C7_upsert_respond_witness :
    upsert none (Value.vBool true) 1 (Value.vObj [("name", Value.vStr "x")]) =
      ⟨[⟨200, some (Value.vBool true)⟩],
       [DbEvent.upsertE (Value.vObj [("name", Value.vStr "x")]) 1]⟩ :=
  C7_upsert_respond_amended (Value.vBool true)
    (Value.vObj [("name", Value.vStr "x")]) 1 (by rfl)

/-- C9: every rejection of a datastore primitive — findAll in index, find in
show, create, upsert, find or save in patch, find or destroy in destroy — is
answered with exactly one 500 response whose body is the raw error. -/
theorem C9_datastore_error_500 (e : Value) (store : List Value) (id : Int)
    (body created result : Value) (sf df : Option Value) :
    index store (some e) = ⟨[⟨500, some e⟩], []⟩ ∧
    show' store (some e) id = ⟨[⟨500, some e⟩], []⟩ ∧
    create (some e) created body =
      ⟨[⟨500, some e⟩], [DbEvent.createE body]⟩ ∧
    upsert (some e) result id body =
      ⟨[⟨500, some e⟩], [DbEvent.upsertE (stripId body) id]⟩ ∧
    patch (some e) sf store id body = ⟨[⟨500, some e⟩], []⟩ ∧
    (∀ ent ent2, store.find? (fun s => hasId s id) = some ent →
      jsonpatchApply (some ent) (stripId body) = Except.ok (some ent2) →
      patch none (some e) store id body =
        ⟨[⟨500, some e⟩], [DbEvent.saveE ent2]⟩) ∧
    destroy (some e) df store id = ⟨[⟨500, some e⟩], []⟩ ∧
    (∀ ent, store.find? (fun s => hasId s id) = some ent →
      destroy none (some e) store id =
        ⟨[⟨500, some e⟩], [DbEvent.destroyE ent]⟩) := by
  refine ⟨?_, ?_, ?_, ?_, ?_, ?_, ?_, ?_⟩
  · simp [index, dbFindAll, pthen, pcatch, handleError]
  · simp [show', dbFind, pthen, pcatch, handleError]
  · simp [create, dbCreate, pthen, pcatch, handleError]
  · simp [upsert, dbUpsert, pthen, pcatch, handleError]
  · simp [patch, dbFind, pthen, pcatch, handleError]
  · intro ent ent2 hf ha
    have ht : truthy (some ent) = true :=
      truthy_of_hasId ent id (by simpa using List.find?_some hf)
    simp [patch, dbFind, pthen, pcatch, handleEntityNotFound, patchUpdates,
      handleError, hf, ht, ha]
  · simp [destroy, dbFind, pthen, pcatch, handleError]
  · intro ent hf
    have ht : truthy (some ent) = true :=
      truthy_of_hasId ent id (by simpa using List.find?_some hf)
    simp [destroy, dbFind, pthen, pcatch, handleEntityNotFound, removeEntity,
      handleError, hf, ht]

/-- C9 witness: with the record of id 1 stored, a rejecting save and a
rejecting destroy each surface as a single 500 with the raw error. -/
theorem C9_datastore_error_witness :
    patch none (some errV) [sess1] 1 (Value.vArr []) =
      ⟨[⟨500, some errV⟩], [DbEvent.saveE sess1]⟩ ∧
    destroy none (some errV) [sess1] 1 =
      ⟨[⟨500, some errV⟩], [DbEvent.destroyE sess1]⟩ := by
  have h := C9_datastore_error_500 errV [sess1] 1 (Value.vArr [])
    (Value.vObj []) (Value.vBool true) none none
  exact ⟨h.2.2.2.2.2.1 sess1 sess1 (by rfl) (by rfl),
    h.2.2.2.2.2.2.2 sess1 (by rfl)⟩

end Session
